import Mathlib

/-!
Shallow embedding of the dance-verify service core (src/index.js): the x402
payment gate, the style validator, the knowledge-base lookup, and the four
protected verification operations, together with proofs of the specified
properties.

Modelling conventions:
* Caller-supplied JSON fields are `Option`-typed; JavaScript truthiness of a
  string field (`undefined`, `null` and the empty string are falsy) is the
  `truthy` predicate below.
* The payment-proof header is modelled after parsing: `Option ParsedHeader`,
  where the outer `Option` is header presence and `ParsedHeader := Option
  Payment` records whether `JSON.parse` succeeded (the `catch` branch of
  `verifyPayment` maps a parse failure to `false`).
* Prices are exact rationals. The source computes `Math.floor(price * 1e6)` in
  IEEE-754 doubles; for the four table entries 0.001, 0.01, 0.05, 0.005 the
  double product rounds to exactly 1000, 10000, 50000 and 5000, so the
  rational floor used here agrees with the JavaScript result.
* Receipt identifiers, UUID content hashes and wall-clock timestamps come from
  external collaborators (uuid, Date.now); receipts are modelled by their
  operation-specific payload, and the ledger by the list of minted payloads.
-/

namespace DanceVerify

/-- The `toLowerCase()` of the source, written structurally over the character
list so that proofs can evaluate it (it agrees with `String.toLower`). -/
def jsToLower (s : String) : String :=
  ⟨s.data.map Char.toLower⟩

/-- The `trim()` of the source: drop whitespace from both ends, written
structurally over the character list (it agrees with `String.trim` on the
inputs of interest). -/
def jsTrim (s : String) : String :=
  ⟨((s.data.dropWhile Char.isWhitespace).reverse.dropWhile Char.isWhitespace).reverse⟩

/-- JavaScript truthiness of an optional string field: `undefined`/`null`
(here `none`) and the empty string are falsy. -/
def truthy : Option String → Bool
  | none => false
  | some s => !(s == "")

/-- JavaScript `v || defaultString` on an optional string field. -/
def orDefault (v : Option String) (d : String) : String :=
  match v with
  | some s => if s == "" then d else s
  | none => d

/-- JavaScript `v || null` on an optional string field. -/
def orNull (v : Option String) : Option String :=
  match v with
  | some s => if s == "" then none else some s
  | none => none

/-- JavaScript `v || null` on an optional number field (0 is falsy). -/
def orNullNat (v : Option Nat) : Option Nat :=
  match v with
  | some n => if n == 0 then none else some n
  | none => none

/-- The four protected operations, keyed in the source by the strings
`verify/move` .. `verify/attribution`. -/
inductive Endpoint where
  | move
  | video
  | choreography
  | attribution
deriving Repr, DecidableEq

def endpointPath : Endpoint → String
  | .move => "verify/move"
  | .video => "verify/video"
  | .choreography => "verify/choreography"
  | .attribution => "verify/attribution"

/-- Static pricing table `PRICES` (USDC, decimal). The `|| 0.001` fallback in
`createPaymentRequired` is unreachable for these four keys and is not
modelled. -/
def PRICES : Endpoint → ℚ
  | .move => 0.001
  | .video => 0.01
  | .choreography => 0.05
  | .attribution => 0.005

/-- `DANCE_STYLES`: the fixed ordered set of recognized style identifiers. -/
def DANCE_STYLES : List String :=
  ["krump", "breaking", "hip-hop", "popping", "locking",
   "house", "waacking", "afro", "kpop", "ballet",
   "contemporary", "jazz", "tap", "salsa", "voguing",
   "dancehall", "reggaeton", "twerk", "shuffle", "other"]

/-- Default `WALLET_ADDRESS` (environment loading is an external collaborator). -/
def WALLET_ADDRESS : String := "0x1e1A34178d80a03E8F4B78f9Cc2AFA8Db23BB092"

def CHAIN_ID : Nat := 84532

def USDC_ADDRESS : String := "0x036CbD53842c5426634e7929541eC2318f3dCF7e"

/-- The machine-readable payment instructions carried by a 402
payment-required response (the decoded `x-402-payment` value). -/
structure PaymentRequiredInfo where
  scheme : String
  network : String
  chainId : Nat
  payee : String
  token : String
  amount : String
  description : String
  resource : String
  mimeType : String
deriving Repr, DecidableEq

/-- `createPaymentRequired(endpoint)`: the amount is
`String(Math.floor(price * 1e6))`. -/
def createPaymentRequired (endpoint : Endpoint) : PaymentRequiredInfo :=
  let price := PRICES endpoint
  { scheme := "exact"
    network := "base-sepolia"
    chainId := CHAIN_ID
    payee := WALLET_ADDRESS
    token := USDC_ADDRESS
    amount := toString (⌊price * 1000000⌋ : ℤ)
    description := "Dance Verify: " ++ endpointPath endpoint
    resource := "/" ++ endpointPath endpoint
    mimeType := "application/json" }

/-- The decoded payment-proof header: optional transaction reference
(`txHash`) and optional signature. -/
structure Payment where
  txHash : Option String
  signature : Option String
deriving Repr, DecidableEq

/-- Result of running `JSON.parse` on a present header: `none` models a parse
exception (caught in `verifyPayment`). -/
abbrev ParsedHeader := Option Payment

/-- The `payments` map: transaction references already consumed, each with the
`Date.now()` timestamp of first use. -/
abbrev UsedMap := List (String × Nat)

def hasUsed (m : UsedMap) (k : String) : Bool :=
  m.any (fun p => p.1 == k)

/-- `payments.set(txHash, { usedAt: now })`; only ever called on a reference
not already in the map, so prepending models `Map.set`. -/
def setUsed (m : UsedMap) (k : String) (now : Nat) : UsedMap :=
  (k, now) :: m

/-- `verifyPayment(paymentHeader)` together with its effect on the `payments`
map. A falsy (`""`) `txHash` is neither replay-checked nor recorded, exactly
as in the source where `payment.txHash && ...` and `if (payment.txHash)`
skip falsy references. -/
def verifyPayment (paymentHeader : Option ParsedHeader) (now : Nat)
    (payments : UsedMap) : Bool × UsedMap :=
  match paymentHeader with
  | none => (false, payments)
  | some none => (false, payments)
  | some (some payment) =>
    if !(truthy payment.txHash) && !(truthy payment.signature) then
      (false, payments)
    else
      match payment.txHash with
      | some tx =>
        if tx == "" then (true, payments)
        else if hasUsed payments tx then (false, payments)
        else (true, setUsed payments tx now)
      | none => (true, payments)

/-- Outcome of the x402 middleware for one request. -/
inductive GateDecision where
  | paymentRequired (info : PaymentRequiredInfo)
  | paymentInvalid
  | proceed
deriving Repr, DecidableEq

/-- `x402Middleware(endpoint)`: 402 with payment instructions when no header,
402 invalid when `verifyPayment` fails, otherwise `next()`. -/
def x402Middleware (endpoint : Endpoint) (header : Option ParsedHeader)
    (now : Nat) (payments : UsedMap) : GateDecision × UsedMap :=
  match header with
  | none => (.paymentRequired (createPaymentRequired endpoint), payments)
  | some parsed =>
    let v := verifyPayment (some parsed) now payments
    if v.1 then (.proceed, v.2) else (.paymentInvalid, v.2)

/-- `validateStyle(style)`: lower-case and trim, then membership in
`DANCE_STYLES`; `none` is the no-match sentinel (`null`). -/
def validateStyle (style : Option String) : Option String :=
  match style with
  | none => none
  | some s =>
    let normalized := jsTrim (jsToLower s)
    if DANCE_STYLES.contains normalized then some normalized else none

/-- The shared pattern `style ? validateStyle(style) : 'other'` of the video,
choreography and attribution handlers. -/
def resolvedStyle (style : Option String) : Option String :=
  if truthy style then validateStyle style else some "other"

/-- A static entry of the krump knowledge base: creator and era. -/
structure KnownMoveRecord where
  creator : String
  era : String
deriving Repr, DecidableEq

/-- The fixed `knownMoves` table inside the attribution handler. -/
def knownMoves : List (String × KnownMoveRecord) :=
  [("chest pop", { creator := "Tight Eyez", era := "2000-2004" }),
   ("arm swing", { creator := "Tight Eyez", era := "2000-2004" }),
   ("stomp", { creator := "Big Mijo", era := "2000-2004" }),
   ("buck", { creator := "Community", era := "2004-2008" }),
   ("kill off", { creator := "Various", era := "2005+" }),
   ("jab", { creator := "Community", era := "2002+" })]

/-- `knownMoves[normalizedMove]`: object-key lookup in the fixed table. -/
def knownMovesLookup (m : String) : Option KnownMoveRecord :=
  (knownMoves.find? (fun p => p.1 == m)).map (fun p => p.2)

/-- The `krumpKnowledge` sub-object: known origin plus whether the claimed
creator matches case-insensitively (`match` in the source; renamed because
`match` is a Lean keyword). -/
structure KrumpKnowledge where
  known_origin : KnownMoveRecord
  matched : Bool
deriving Repr, DecidableEq

/-! Request bodies of the four protected operations. Every caller-supplied
field is optional; `year` and `duration_seconds` are numbers in the source. -/

structure MoveBody where
  style : Option String
  move_name : Option String
  claimed_creator : Option String
  description : Option String
  video_url : Option String
deriving Repr, DecidableEq

structure VideoBody where
  style : Option String
  video_url : Option String
  title : Option String
  claimed_creators : Option (List String)
  description : Option String
deriving Repr, DecidableEq

structure ChoreoBody where
  style : Option String
  video_url : Option String
  title : Option String
  choreographer : Option String
  moves : Option (List String)
  duration_seconds : Option Nat
deriving Repr, DecidableEq

structure AttributionBody where
  move_name : Option String
  claimed_creator : Option String
  style : Option String
  year : Option Nat
  evidence_urls : Option (List String)
deriving Repr, DecidableEq

/-! Echoed request payloads and result objects of the minted receipts.
Constant confidence scores are kept as exact rationals. -/

structure MoveAttributionNote where
  claimed : String
  verified : Bool
  note : String
deriving Repr, DecidableEq

structure MoveRequestEcho where
  style : String
  move_name : String
  claimed_creator : String
  description : Option String
  video_url : Option String
deriving Repr, DecidableEq

structure MoveResult where
  status : String
  style_valid : Bool
  confidence : ℚ
  attribution : Option MoveAttributionNote
deriving Repr, DecidableEq

structure VideoRequestEcho where
  style : Option String
  video_url : String
  title : Option String
  claimed_creators : List String
  description : Option String
deriving Repr, DecidableEq

/-- The `content_hash` field is a fresh UUID-derived string from an external
collaborator and is not modelled. -/
structure VideoResult where
  status : String
  video_accessible : Bool
  style_detected : Option String
  confidence : ℚ
  note : String
deriving Repr, DecidableEq

/-- `moves?.length || 'pending_analysis'`: either a count or the pending
sentinel. -/
inductive MoveCount where
  | count (n : Nat)
  | pending_analysis
deriving Repr, DecidableEq

structure ChoreoRequestEcho where
  style : Option String
  video_url : Option String
  title : Option String
  choreographer : String
  moves : List String
  duration_seconds : Option Nat
deriving Repr, DecidableEq

structure ChoreoResult where
  status : String
  move_count : MoveCount
  style_consistency : ℚ
  originality_score : ℚ
  choreographer_verified : Bool
  note : String
deriving Repr, DecidableEq

structure AttributionRequestEcho where
  move_name : String
  claimed_creator : String
  style : Option String
  year : Option Nat
  evidence_urls : List String
deriving Repr, DecidableEq

structure AttributionResult where
  status : String
  claim_recorded : Bool
  krump_database_match : Option KrumpKnowledge
  verification_status : String
  confidence : ℚ
  note : String
deriving Repr, DecidableEq

/-- Operation-specific payload of a minted receipt (identifier, timestamps and
the fixed ledger envelope fields are external or constant and not modelled). -/
inductive ReceiptData where
  | move (request : MoveRequestEcho) (result : MoveResult) (price_paid : String)
  | video (request : VideoRequestEcho) (result : VideoResult) (price_paid : String)
  | choreography (request : ChoreoRequestEcho) (result : ChoreoResult) (price_paid : String)
  | attribution (request : AttributionRequestEcho) (result : AttributionResult) (price_paid : String)
deriving Repr, DecidableEq

/-- Outcome of a handler once the payment gate has been passed. -/
inductive HandlerResult where
  | badRequest (message : String)
  | invalidStyle (style : String) (valid_styles : List String)
  | ok (receipt : ReceiptData)
deriving Repr, DecidableEq

/-- `POST /verify/move` handler body (after the payment gate). -/
def moveHandler (b : MoveBody) : HandlerResult :=
  if !(truthy b.style) || !(truthy b.move_name) then
    .badRequest "Required fields: style, move_name"
  else
    match validateStyle b.style with
    | none => .invalidStyle (b.style.getD "") DANCE_STYLES
    | some validStyle =>
      .ok (.move
        { style := validStyle
          move_name := b.move_name.getD ""
          claimed_creator := orDefault b.claimed_creator "unknown"
          description := orNull b.description
          video_url := orNull b.video_url }
        { status := "recorded"
          style_valid := true
          confidence := 0.7
          attribution :=
            if truthy b.claimed_creator then
              some { claimed := b.claimed_creator.getD ""
                     verified := false
                     note := "Attribution verification requires advanced tier" }
            else none }
        "0.001 USDC")

/-- `POST /verify/video` handler body (after the payment gate). -/
def videoHandler (b : VideoBody) : HandlerResult :=
  if !(truthy b.video_url) then
    .badRequest "Required field: video_url"
  else
    let validStyle := resolvedStyle b.style
    .ok (.video
      { style := validStyle
        video_url := b.video_url.getD ""
        title := orNull b.title
        claimed_creators := b.claimed_creators.getD []
        description := orNull b.description }
      { status := "recorded"
        video_accessible := true
        style_detected := validStyle
        confidence := 0.65
        note := "Full video analysis requires advanced tier with AI processing" }
      "0.01 USDC")

/-- `POST /verify/choreography` handler body (after the payment gate). The
validation guard `!video_url && !moves` treats an empty array as present
(arrays are truthy), while `moves?.length || 'pending_analysis'` treats a
zero length as falsy. -/
def choreoHandler (b : ChoreoBody) : HandlerResult :=
  if !(truthy b.video_url) && b.moves.isNone then
    .badRequest "Required: video_url or moves array"
  else
    let validStyle := resolvedStyle b.style
    .ok (.choreography
      { style := validStyle
        video_url := orNull b.video_url
        title := orNull b.title
        choreographer := orDefault b.choreographer "unknown"
        moves := b.moves.getD []
        duration_seconds := orNullNat b.duration_seconds }
      { status := "recorded"
        move_count :=
          match b.moves with
          | some l => if l.length == 0 then .pending_analysis else .count l.length
          | none => .pending_analysis
        style_consistency := 0.8
        originality_score := 0.6
        choreographer_verified := false
        note := "Full choreography breakdown requires advanced AI analysis" }
      "0.05 USDC")

/-- `POST /verify/attribution` handler body (after the payment gate). -/
def attributionHandler (b : AttributionBody) : HandlerResult :=
  if !(truthy b.move_name) || !(truthy b.claimed_creator) then
    .badRequest "Required fields: move_name, claimed_creator"
  else
    let move_name := b.move_name.getD ""
    let claimed_creator := b.claimed_creator.getD ""
    let validStyle := resolvedStyle b.style
    let krumpKnowledge : Option KrumpKnowledge :=
      if validStyle == some "krump" then
        match knownMovesLookup (jsToLower move_name) with
        | some record =>
          some { known_origin := record
                 matched := jsToLower record.creator == jsToLower claimed_creator }
        | none => none
      else none
    .ok (.attribution
      { move_name := move_name
        claimed_creator := claimed_creator
        style := validStyle
        year := orNullNat b.year
        evidence_urls := b.evidence_urls.getD [] }
      { status := "recorded"
        claim_recorded := true
        krump_database_match := krumpKnowledge
        verification_status :=
          if (krumpKnowledge.map KrumpKnowledge.matched).getD false then
            "likely_accurate"
          else "unverified"
        confidence := if krumpKnowledge.isSome then 0.85 else 0.5
        note :=
          if validStyle == some "krump" then
            "Krump attribution cross-referenced with our lineage database"
          else "Attribution recorded. Advanced verification coming soon." }
      "0.005 USDC")

/-- A request body addressed to one of the four protected operations. -/
inductive Body where
  | move (b : MoveBody)
  | video (b : VideoBody)
  | choreography (b : ChoreoBody)
  | attribution (b : AttributionBody)
deriving Repr, DecidableEq

def endpointOf : Body → Endpoint
  | .move _ => .move
  | .video _ => .video
  | .choreography _ => .choreography
  | .attribution _ => .attribution

/-- Dispatch to the operation handler (runs only after the gate). -/
def handler : Body → HandlerResult
  | .move b => moveHandler b
  | .video b => videoHandler b
  | .choreography b => choreoHandler b
  | .attribution b => attributionHandler b

/-- Response of the whole route: gate outcomes or handler outcomes. -/
inductive Response where
  | paymentRequired (info : PaymentRequiredInfo)
  | paymentInvalid
  | badRequest (message : String)
  | invalidStyle (style : String) (valid_styles : List String)
  | ok (receipt : ReceiptData)
deriving Repr, DecidableEq

/-- Process-wide mutable state: the receipt ledger (most recent first) and the
used-proof map. -/
structure ServerState where
  receipts : List ReceiptData
  payments : UsedMap
deriving Repr, DecidableEq

/-- One inbound protected request: body, payment header (post-parse) and the
current time. -/
structure RequestIn where
  body : Body
  header : Option ParsedHeader
  now : Nat
deriving Repr, DecidableEq

/-- The full route pipeline: `x402Middleware` first, then the handler; a
successful handler mints (stores) its receipt. -/
def handleRequest (r : RequestIn) (st : ServerState) : Response × ServerState :=
  let g := x402Middleware (endpointOf r.body) r.header r.now st.payments
  match g.1 with
  | .paymentRequired info => (.paymentRequired info, { st with payments := g.2 })
  | .paymentInvalid => (.paymentInvalid, { st with payments := g.2 })
  | .proceed =>
    match handler r.body with
    | .badRequest m => (.badRequest m, { st with payments := g.2 })
    | .invalidStyle s vs => (.invalidStyle s vs, { st with payments := g.2 })
    | .ok rd => (.ok rd, { receipts := rd :: st.receipts, payments := g.2 })

/-- Sequential processing of a list of requests. -/
def processAll (rs : List RequestIn) (st : ServerState) : ServerState :=
  rs.foldl (fun s r => (handleRequest r s).2) st

/-! ## Supporting lemmas -/

theorem truthy_some_of_ne {r : String} (h : r ≠ "") : truthy (some r) = true := by
  simp [truthy, h]

/-- Behaviour of the gate on a parsed proof carrying a nonempty transaction
reference: replay-reject if used, else accept and record. -/
theorem verifyPayment_eq_of_tx {p : Payment} {r : String} (htx : p.txHash = some r)
    (hr : r ≠ "") (now : Nat) (m : UsedMap) :
    verifyPayment (some (some p)) now m =
      if hasUsed m r then (false, m) else (true, setUsed m r now) := by
  have hr2 : (r == "") = false := by simp [hr]
  simp [verifyPayment, htx, truthy, hr2]

theorem verifyPayment_rejects_used {p : Payment} {r : String} (now : Nat) {m : UsedMap}
    (htx : p.txHash = some r) (hr : r ≠ "") (hused : hasUsed m r = true) :
    verifyPayment (some (some p)) now m = (false, m) := by
  rw [verifyPayment_eq_of_tx htx hr, if_pos hused]

theorem verifyPayment_marks {p : Payment} {r : String} (now : Nat) {m : UsedMap}
    (htx : p.txHash = some r) (hr : r ≠ "")
    (hv : (verifyPayment (some (some p)) now m).1 = true) :
    hasUsed (verifyPayment (some (some p)) now m).2 r = true := by
  rw [verifyPayment_eq_of_tx htx hr] at hv ⊢
  by_cases hused : hasUsed m r = true
  · rw [if_pos hused] at hv
    simp at hv
  · simp only [Bool.not_eq_true] at hused
    rw [if_neg (by simp [hused])]
    simp [hasUsed, setUsed]

/-- The gate never erases a recorded reference. -/
theorem verifyPayment_snd (h : Option ParsedHeader) (now : Nat) (m : UsedMap) :
    (verifyPayment h now m).2 = m ∨ ∃ k, (verifyPayment h now m).2 = setUsed m k now := by
  match h with
  | none => exact Or.inl rfl
  | some none => exact Or.inl rfl
  | some (some p) =>
    simp only [verifyPayment]
    split
    · exact Or.inl rfl
    · split
      · split
        · exact Or.inl rfl
        · split
          · exact Or.inl rfl
          · exact Or.inr ⟨_, rfl⟩
      · exact Or.inl rfl

theorem hasUsed_verifyPayment_mono {m : UsedMap} {r : String}
    (h : Option ParsedHeader) (now : Nat) (hu : hasUsed m r = true) :
    hasUsed (verifyPayment h now m).2 r = true := by
  rcases verifyPayment_snd h now m with he | ⟨k, he⟩ <;> rw [he]
  · exact hu
  · simp only [hasUsed, setUsed, List.any_cons] at hu ⊢
    rw [hu, Bool.or_true]


/-- The middleware threads the `payments` map exactly as `verifyPayment`
leaves it. -/
theorem x402Middleware_snd (e : Endpoint) (h : Option ParsedHeader) (now : Nat)
    (pm : UsedMap) :
    (x402Middleware e h now pm).2 = (verifyPayment h now pm).2 := by
  match h with
  | none => rfl
  | some parsed =>
    unfold x402Middleware
    dsimp only
    split <;> rfl

/-- The route changes the `payments` map only through the middleware. -/
theorem handleRequest_payments (req : RequestIn) (st : ServerState) :
    ((handleRequest req st).2).payments =
      (x402Middleware (endpointOf req.body) req.header req.now st.payments).2 := by
  unfold handleRequest
  dsimp only
  split
  · rfl
  · rfl
  · split <;> rfl

/-- A reference recorded as used stays recorded across any request. -/
theorem hasUsed_handleRequest_mono {st : ServerState} {r : String}
    (req : RequestIn) (hu : hasUsed st.payments r = true) :
    hasUsed ((handleRequest req st).2).payments r = true := by
  rw [handleRequest_payments, x402Middleware_snd]
  exact hasUsed_verifyPayment_mono _ _ hu

/-- A reference recorded as used stays recorded across any request trace. -/
theorem hasUsed_processAll_mono {st : ServerState} {r : String}
    (rs : List RequestIn) (hu : hasUsed st.payments r = true) :
    hasUsed ((processAll rs st).payments) r = true := by
  induction rs generalizing st with
  | nil => simpa [processAll] using hu
  | cons a tl ih =>
    simp only [processAll, List.foldl_cons] at *
    exact ih (hasUsed_handleRequest_mono a hu)

/-- A parsed proof carrying an already-used reference is rejected by the whole
route, with the state unchanged. -/
theorem handleRequest_rejects_used {q : Payment} {r : String} {st : ServerState}
    (b : Body) (now : Nat) (hq : q.txHash = some r) (hr : r ≠ "")
    (hu : hasUsed st.payments r = true) :
    handleRequest { body := b, header := some (some q), now := now } st =
      (Response.paymentInvalid, st) := by
  unfold handleRequest x402Middleware
  dsimp only
  rw [verifyPayment_rejects_used now hq hr hu]
  simp


/-- A `proceed` decision comes exactly from a successful `verifyPayment`. -/
theorem x402_proceed_inv {e : Endpoint} {h : Option ParsedHeader} {now : Nat}
    {pm g : UsedMap}
    (hacc : x402Middleware e h now pm = (GateDecision.proceed, g)) :
    (verifyPayment h now pm).1 = true ∧ (verifyPayment h now pm).2 = g := by
  match h with
  | none => simp [x402Middleware] at hacc
  | some parsed =>
    unfold x402Middleware at hacc
    dsimp only at hacc
    by_cases hv : (verifyPayment (some parsed) now pm).1 = true
    · rw [if_pos hv] at hacc
      exact ⟨hv, by simpa using congrArg Prod.snd hacc⟩
    · rw [if_neg hv] at hacc
      simp at hacc

/-- Route outcome once the gate has decided `proceed`. -/
theorem handleRequest_of_proceed {req : RequestIn} {st : ServerState} {pm2 : UsedMap}
    (hg : x402Middleware (endpointOf req.body) req.header req.now st.payments =
      (GateDecision.proceed, pm2)) :
    handleRequest req st =
      match handler req.body with
      | .badRequest m => (Response.badRequest m, { st with payments := pm2 })
      | .invalidStyle s vs => (Response.invalidStyle s vs, { st with payments := pm2 })
      | .ok rd => (Response.ok rd, { receipts := rd :: st.receipts, payments := pm2 }) := by
  unfold handleRequest
  dsimp only
  rw [hg]

/-- First component of the route outcome, by gate decision. -/
theorem handleRequest_fst (req : RequestIn) (st : ServerState) :
    (handleRequest req st).1 =
      match (x402Middleware (endpointOf req.body) req.header req.now st.payments).1 with
      | .paymentRequired info => Response.paymentRequired info
      | .paymentInvalid => Response.paymentInvalid
      | .proceed =>
        match handler req.body with
        | .badRequest m => Response.badRequest m
        | .invalidStyle s vs => Response.invalidStyle s vs
        | .ok rd => Response.ok rd := by
  unfold handleRequest
  dsimp only
  cases hg : (x402Middleware (endpointOf req.body) req.header req.now st.payments).1
  · rfl
  · rfl
  · cases hh : handler req.body <;> rfl

/-- C1: once a gated request carrying a proof with a transaction reference has
been accepted by the payment gate, every subsequent request presenting a proof
with the same reference fails with payment-invalid, regardless of the other
proof fields or which protected operation is addressed. -/
theorem accepted_reference_always_rejected_later
    (p q : Payment) (r : String) (e : Endpoint) (now now2 : Nat)
    (pm pm1 : UsedMap) (receipts : List ReceiptData)
    (rest : List RequestIn) (b2 : Body)
    (hp : p.txHash = some r) (hr : r ≠ "")
    (hacc : x402Middleware e (some (some p)) now pm = (GateDecision.proceed, pm1))
    (hq : q.txHash = some r) :
    handleRequest { body := b2, header := some (some q), now := now2 }
        (processAll rest { receipts := receipts, payments := pm1 }) =
      (Response.paymentInvalid,
        processAll rest { receipts := receipts, payments := pm1 }) := by
  obtain ⟨hv, he⟩ := x402_proceed_inv hacc
  have h1 : hasUsed pm1 r = true := by
    rw [← he]
    exact verifyPayment_marks now hp hr hv
  have h2 : hasUsed (processAll rest { receipts := receipts, payments := pm1 }).payments r = true :=
    hasUsed_processAll_mono rest (by simpa using h1)
  exact handleRequest_rejects_used b2 now2 hq hr h2

theorem accepted_reference_always_rejected_later_witness :
    handleRequest
        { body := Body.video
            { style := none, video_url := some "http://v.example", title := none,
              claimed_creators := none, description := none },
          header := some (some { txHash := some "0xabc123", signature := some "sig" }),
          now := 7 }
        (processAll [] { receipts := [], payments := [("0xabc123", 3)] }) =
      (Response.paymentInvalid,
        processAll [] { receipts := [], payments := [("0xabc123", 3)] }) :=
  accepted_reference_always_rejected_later
    { txHash := some "0xabc123", signature := none }
    { txHash := some "0xabc123", signature := some "sig" }
    "0xabc123" Endpoint.move 3 7 [] [("0xabc123", 3)] [] []
    (Body.video
      { style := none, video_url := some "http://v.example", title := none,
        claimed_creators := none, description := none })
    rfl (by decide) (by decide) rfl

/-- C4: payment gating runs before field validation: with no payment header
the route answers payment-required whatever the body, and a bad-request or
invalid-style answer is only ever given to a request the gate let through. -/
theorem gate_runs_before_validation
    (b : Body) (h : Option ParsedHeader) (now : Nat) (st : ServerState) :
    ((handleRequest { body := b, header := none, now := now } st).1 =
      Response.paymentRequired (createPaymentRequired (endpointOf b))) ∧
    (∀ m, (handleRequest { body := b, header := h, now := now } st).1 =
        Response.badRequest m →
      (x402Middleware (endpointOf b) h now st.payments).1 = GateDecision.proceed) ∧
    (∀ s vs, (handleRequest { body := b, header := h, now := now } st).1 =
        Response.invalidStyle s vs →
      (x402Middleware (endpointOf b) h now st.payments).1 = GateDecision.proceed) := by
  refine ⟨rfl, ?_, ?_⟩
  · intro m hm
    rw [handleRequest_fst] at hm
    revert hm
    cases hg : (x402Middleware (endpointOf b) h now st.payments).1 <;> intro hm
    · simp at hm
    · simp at hm
    · rfl
  · intro s vs hm
    rw [handleRequest_fst] at hm
    revert hm
    cases hg : (x402Middleware (endpointOf b) h now st.payments).1 <;> intro hm
    · simp at hm
    · simp at hm
    · rfl

theorem gate_runs_before_validation_witness :
    (x402Middleware
        (endpointOf (Body.move
          { style := none, move_name := none, claimed_creator := none,
            description := none, video_url := none }))
        (some (some { txHash := some "0xfresh", signature := none })) 0
        (ServerState.payments { receipts := [], payments := [] })).1 =
      GateDecision.proceed :=
  (gate_runs_before_validation
      (Body.move
        { style := none, move_name := none, claimed_creator := none,
          description := none, video_url := none })
      (some (some { txHash := some "0xfresh", signature := none })) 0
      { receipts := [], payments := [] }).2.1
    "Required fields: style, move_name" (by decide)


/-- Unfolding of the gate on a successfully parsed proof. -/
theorem verifyPayment_some_some (p : Payment) (now : Nat) (pm : UsedMap) :
    verifyPayment (some (some p)) now pm =
      if !truthy p.txHash && !truthy p.signature then (false, pm)
      else
        match p.txHash with
        | some tx =>
          if tx == "" then (true, pm)
          else if hasUsed pm tx then (false, pm)
          else (true, setUsed pm tx now)
        | none => (true, pm) := rfl

/-- C2: a request with no payment-proof header yields payment-required whose
instructions carry `amount = floor(price * 1e6)` for the addressed operation,
equal to 1000, 10000, 50000 and 5000 micro-units for move, video,
choreography and attribution respectively. -/
theorem payment_required_amounts (b : Body) (now : Nat) (st : ServerState) :
    ((handleRequest { body := b, header := none, now := now } st).1 =
      Response.paymentRequired (createPaymentRequired (endpointOf b))) ∧
    (∀ e : Endpoint,
      (createPaymentRequired e).amount = toString (⌊PRICES e * 1000000⌋ : ℤ)) ∧
    (createPaymentRequired .move).amount = "1000" ∧
    (createPaymentRequired .video).amount = "10000" ∧
    (createPaymentRequired .choreography).amount = "50000" ∧
    (createPaymentRequired .attribution).amount = "5000" := by
  refine ⟨rfl, fun e => rfl, ?_, ?_, ?_, ?_⟩ <;>
    · show toString (⌊(_ : ℚ) * 1000000⌋ : ℤ) = _
      norm_num [PRICES]
      rfl

/-- C5: with a header present, the gate fails exactly when the header does not
parse, or the proof has neither a (truthy) transaction reference nor a
(truthy) signature, or its transaction reference is already recorded as used;
a parse failure is caught and mapped to the same failure; in every other case
the request proceeds. -/
theorem gate_failure_characterization (parsed : ParsedHeader) (now : Nat)
    (pm : UsedMap) :
    (verifyPayment (some parsed) now pm).1 = false ↔
      parsed = none ∨
      ∃ p, parsed = some p ∧
        ((truthy p.txHash = false ∧ truthy p.signature = false) ∨
          ∃ r, p.txHash = some r ∧ r ≠ "" ∧ hasUsed pm r = true) := by
  match parsed with
  | none => simp [verifyPayment]
  | some p =>
    simp only [Option.some.injEq, reduceCtorEq, false_or]
    constructor
    · intro hfail
      refine ⟨p, rfl, ?_⟩
      rw [verifyPayment_some_some] at hfail
      by_cases hg : (!truthy p.txHash && !truthy p.signature) = true
      · rw [if_pos hg] at hfail
        simp only [Bool.and_eq_true, Bool.not_eq_true'] at hg
        exact Or.inl hg
      · rw [if_neg hg] at hfail
        match htx : p.txHash with
        | some tx =>
          rw [htx] at hfail
          dsimp only at hfail
          by_cases h0 : (tx == "") = true
          · rw [if_pos h0] at hfail
            simp at hfail
          · rw [if_neg h0] at hfail
            by_cases hu : hasUsed pm tx = true
            · exact Or.inr ⟨tx, rfl, by simpa using h0, hu⟩
            · rw [if_neg hu] at hfail
              simp at hfail
        | none =>
          rw [htx] at hfail
          simp at hfail
    · rintro ⟨p2, rfl, hcase⟩
      rcases hcase with ⟨ht, hs⟩ | ⟨r, htx, hr, hu⟩
      · rw [verifyPayment_some_some, if_pos (by simp [ht, hs])]
      · rw [verifyPayment_rejects_used now htx hr hu]

theorem gate_failure_characterization_witness :
    (verifyPayment (some (some { txHash := some "0xdup", signature := none })) 5
        [("0xdup", 1)]).1 = false :=
  (gate_failure_characterization
      (some { txHash := some "0xdup", signature := none }) 5 [("0xdup", 1)]).mpr
    (Or.inr ⟨{ txHash := some "0xdup", signature := none }, rfl,
      Or.inr ⟨"0xdup", rfl, by decide, by decide⟩⟩)

/-- C9: a parsed proof with a (truthy) signature and no (truthy) transaction
reference passes the gate and leaves the used-proof map unchanged, so the
identical signature-only proof is accepted again on every request: replay
protection covers only proofs carrying a transaction reference. -/
theorem signature_only_proof_always_accepted
    (p : Payment) (e : Endpoint) (now : Nat) (pm : UsedMap)
    (hsig : truthy p.signature = true) (htx : truthy p.txHash = false) :
    x402Middleware e (some (some p)) now pm = (GateDecision.proceed, pm) := by
  have hv : verifyPayment (some (some p)) now pm = (true, pm) := by
    rw [verifyPayment_some_some, if_neg (by simp [hsig])]
    match h2 : p.txHash with
    | some tx =>
      have h3 : (tx == "") = true := by
        rw [h2] at htx
        simpa [truthy] using htx
      dsimp only
      rw [if_pos h3]
    | none => rfl
  unfold x402Middleware
  dsimp only
  simp [hv]

theorem signature_only_proof_always_accepted_witness :
    x402Middleware Endpoint.choreography
        (some (some { txHash := none, signature := some "0xsigned" })) 9
        [("0xother", 2)] =
      (GateDecision.proceed, [("0xother", 2)]) :=
  signature_only_proof_always_accepted
    { txHash := none, signature := some "0xsigned" }
    Endpoint.choreography 9 [("0xother", 2)] (by decide) (by decide)


/-- Every entry of the style table is already lower-cased and trimmed. -/
theorem dance_styles_normalized {t : String} (h : t ∈ DANCE_STYLES) :
    jsTrim (jsToLower t) = t := by
  fin_cases h <;> rfl

/-- C8: `validateStyle` lower-cases and trims its input and keeps it exactly
when the normal form is a recognized style; it is idempotent on accepted
outputs and case/whitespace-insensitive, so "  KRUMP " and "krump" normalize
identically. -/
theorem validateStyle_idempotent (s t : String)
    (h : validateStyle (some s) = some t) :
    validateStyle (some t) = some t ∧
    (∀ u : String, validateStyle (some u) =
      (if DANCE_STYLES.contains (jsTrim (jsToLower u)) then
        some (jsTrim (jsToLower u)) else none)) ∧
    validateStyle (some "  KRUMP ") = some "krump" ∧
    validateStyle (some "krump") = some "krump" := by
  refine ⟨?_, fun u => rfl, by decide, by decide⟩
  unfold validateStyle at h
  dsimp only at h
  by_cases hc : DANCE_STYLES.contains (jsTrim (jsToLower s)) = true
  · rw [if_pos hc] at h
    injection h with h2
    subst h2
    have hmem : jsTrim (jsToLower s) ∈ DANCE_STYLES := by simpa using hc
    have hnorm := dance_styles_normalized hmem
    unfold validateStyle
    dsimp only
    rw [hnorm, if_pos hc]
  · rw [if_neg hc] at h
    cases h

theorem validateStyle_idempotent_witness :
    validateStyle (some "krump") = some "krump" :=
  (validateStyle_idempotent "  KRUMP " "krump" (by decide)).1

/-- Projection: the recorded request style of a minted receipt of the three
style-tolerant operations. -/
def mintedStyle : HandlerResult → Option (Option String)
  | .ok (.video req _ _) => some req.style
  | .ok (.choreography req _ _) => some req.style
  | .ok (.attribution req _ _) => some req.style
  | _ => none

/-- C3 as stated is false: a supplied unrecognized style is recorded as the
null sentinel, which differs from the catch-all used for a missing style. -/
theorem unrecognized_style_not_other :
    mintedStyle (videoHandler
      { style := some "not-a-style", video_url := some "http://v.example",
        title := none, claimed_creators := none, description := none }) =
      some none ∧
    mintedStyle (videoHandler
      { style := none, video_url := some "http://v.example",
        title := none, claimed_creators := none, description := none }) =
      some (some "other") ∧
    some (none : Option String) ≠ some (some "other") := by
  refine ⟨by decide, by decide, by decide⟩

/-- C3 amended: for video, choreography and attribution, a supplied but
unrecognized style string lets the operation proceed with the null style (the
no-match sentinel of the validator), not the catch-all — a different outcome
from a missing or empty style field, either of which defaults to the
catch-all "other". -/
theorem unrecognized_style_recorded_null (s : String)
    (hbad : validateStyle (some s) = none) (hs : s ≠ "")
    (vb : VideoBody) (cb : ChoreoBody) (ab : AttributionBody)
    (hv : truthy vb.video_url = true)
    (hc : (!(truthy cb.video_url) && cb.moves.isNone) = false)
    (ha : truthy ab.move_name = true) (ha2 : truthy ab.claimed_creator = true) :
    mintedStyle (videoHandler { vb with style := some s }) = some none ∧
    mintedStyle (choreoHandler { cb with style := some s }) = some none ∧
    mintedStyle (attributionHandler { ab with style := some s }) = some none ∧
    mintedStyle (videoHandler { vb with style := none }) = some (some "other") ∧
    mintedStyle (choreoHandler { cb with style := none }) = some (some "other") ∧
    mintedStyle (attributionHandler { ab with style := none }) = some (some "other") ∧
    mintedStyle (videoHandler { vb with style := some "" }) = some (some "other") ∧
    mintedStyle (choreoHandler { cb with style := some "" }) = some (some "other") ∧
    mintedStyle (attributionHandler { ab with style := some "" }) = some (some "other") := by
  have hres : resolvedStyle (some s) = none := by
    simp [resolvedStyle, truthy, hs, hbad]
  have hres2 : resolvedStyle none = some "other" := rfl
  have hres3 : resolvedStyle (some "") = some "other" := rfl
  refine ⟨?_, ?_, ?_, ?_, ?_, ?_, ?_, ?_, ?_⟩ <;>
    simp [videoHandler, choreoHandler, attributionHandler, mintedStyle,
      hv, hc, ha, ha2, hres, hres2, hres3]

theorem unrecognized_style_recorded_null_witness :
    mintedStyle (videoHandler
      { style := some "not-a-style2", video_url := some "http://w.example",
        title := none, claimed_creators := none, description := none }) =
      some none :=
  (unrecognized_style_recorded_null "not-a-style2" (by decide) (by decide)
      { style := some "ignored", video_url := some "http://w.example",
        title := none, claimed_creators := none, description := none }
      { style := none, video_url := some "http://w.example", title := none,
        choreographer := none, moves := none, duration_seconds := none }
      { move_name := some "jab", claimed_creator := some "Community",
        style := none, year := none, evidence_urls := none }
      (by decide) (by decide) (by decide) (by decide)).1


/-- Projection: the move count of a minted choreography receipt. -/
def mintedMoveCount : HandlerResult → Option MoveCount
  | .ok (.choreography _ res _) => some res.move_count
  | _ => none

/-- C6 as stated is false: a supplied empty moves list passes validation but
yields the pending sentinel, not a count of 0. -/
theorem empty_moves_list_yields_pending :
    mintedMoveCount (choreoHandler
      { style := none, video_url := none, title := none, choreographer := none,
        moves := some [], duration_seconds := none }) =
      some MoveCount.pending_analysis ∧
    some MoveCount.pending_analysis ≠ some (MoveCount.count 0) := by
  refine ⟨by decide, by decide⟩

/-- C6 amended: the minted move count equals the length of the supplied moves
list whenever that list is nonempty, and the pending sentinel appears exactly
when the moves list is missing or empty. -/
theorem choreo_move_count (b b2 : ChoreoBody) (l : List String)
    (hmv : b.moves = some l) (hne : l ≠ [])
    (hok2 : truthy b2.video_url = true)
    (hmv2 : b2.moves = none ∨ b2.moves = some []) :
    mintedMoveCount (choreoHandler b) = some (MoveCount.count l.length) ∧
    mintedMoveCount (choreoHandler b2) = some MoveCount.pending_analysis := by
  constructor
  · have hlen : (l.length == 0) = false := by
      simp [List.length_eq_zero, hne]
    simp [choreoHandler, hmv, mintedMoveCount, hlen]
  · rcases hmv2 with h2 | h2 <;>
      simp [choreoHandler, hok2, h2, mintedMoveCount]

theorem choreo_move_count_witness :
    mintedMoveCount (choreoHandler
      { style := none, video_url := none, title := none, choreographer := none,
        moves := some ["jab", "buck", "stomp"], duration_seconds := none }) =
      some (MoveCount.count 3) :=
  (choreo_move_count
      { style := none, video_url := none, title := none, choreographer := none,
        moves := some ["jab", "buck", "stomp"], duration_seconds := none }
      { style := none, video_url := some "http://v.example", title := none,
        choreographer := none, moves := none, duration_seconds := none }
      ["jab", "buck", "stomp"] rfl (by decide) (by decide) (Or.inl rfl)).1

/-- Projection: the verification status of a minted attribution receipt. -/
def mintedVerificationStatus : HandlerResult → Option String
  | .ok (.attribution _ res _) => some res.verification_status
  | _ => none

/-- C7: for move "chest pop" and style "krump", claimed creator "Tight Eyez"
yields a knowledge-base match with status likely-accurate while "Someone
Else" yields unverified; in general the creator comparison is a
case-insensitive exact match against the fixed known-moves table. -/
theorem attribution_known_move_status (mv claimed : String) (rec : KnownMoveRecord)
    (hmv : mv ≠ "") (hcl : claimed ≠ "")
    (hrec : knownMovesLookup (jsToLower mv) = some rec) :
    mintedVerificationStatus (attributionHandler
      { move_name := some "chest pop", claimed_creator := some "Tight Eyez",
        style := some "krump", year := none, evidence_urls := none }) =
      some "likely_accurate" ∧
    mintedVerificationStatus (attributionHandler
      { move_name := some "chest pop", claimed_creator := some "Someone Else",
        style := some "krump", year := none, evidence_urls := none }) =
      some "unverified" ∧
    mintedVerificationStatus (attributionHandler
      { move_name := some mv, claimed_creator := some claimed,
        style := some "krump", year := none, evidence_urls := none }) =
      some (if jsToLower rec.creator == jsToLower claimed then
        "likely_accurate" else "unverified") := by
  refine ⟨by decide, by decide, ?_⟩
  have hst : resolvedStyle (some "krump") = some "krump" := by decide
  simp [attributionHandler, truthy, hmv, hcl, hrec, hst, mintedVerificationStatus]

theorem attribution_known_move_status_witness :
    mintedVerificationStatus (attributionHandler
      { move_name := some "chest pop", claimed_creator := some "Tight Eyez",
        style := some "krump", year := none, evidence_urls := none }) =
      some "likely_accurate" :=
  (attribution_known_move_status "chest pop" "Tight Eyez"
      { creator := "Tight Eyez", era := "2000-2004" }
      (by decide) (by decide) (by decide)).1

/-- C10: a valid, previously unused proof consumed by a request that then
fails domain validation still records the reference as used and mints no
receipt; retrying the same reference afterwards fails with payment-invalid. -/
theorem reference_consumed_on_validation_failure
    (b : Body) (p : Payment) (r : String) (now : Nat) (st : ServerState)
    (htx : p.txHash = some r) (hr : r ≠ "")
    (hunused : hasUsed st.payments r = false)
    (hfail : (∃ m, handler b = HandlerResult.badRequest m) ∨
             (∃ s vs, handler b = HandlerResult.invalidStyle s vs)) :
    ((handleRequest { body := b, header := some (some p), now := now } st).2.receipts
        = st.receipts) ∧
    (hasUsed
      (handleRequest { body := b, header := some (some p), now := now } st).2.payments
      r = true) ∧
    (∀ (q : Payment) (b2 : Body) (now2 : Nat), q.txHash = some r →
      handleRequest { body := b2, header := some (some q), now := now2 }
          (handleRequest { body := b, header := some (some p), now := now } st).2 =
        (Response.paymentInvalid,
          (handleRequest { body := b, header := some (some p), now := now } st).2)) := by
  have hveq : verifyPayment (some (some p)) now st.payments =
      (true, setUsed st.payments r now) := by
    rw [verifyPayment_eq_of_tx htx hr, if_neg (by simp [hunused])]
  have hgate : x402Middleware (endpointOf b) (some (some p)) now st.payments =
      (GateDecision.proceed, setUsed st.payments r now) := by
    unfold x402Middleware
    dsimp only
    simp [hveq]
  have hreq := @handleRequest_of_proceed
    { body := b, header := some (some p), now := now } st
    (setUsed st.payments r now) hgate
  have hused2 : hasUsed (setUsed st.payments r now) r = true := by
    simp [setUsed, hasUsed]
  rcases hfail with ⟨m, hm⟩ | ⟨s, vs, hm⟩ <;>
    rw [hm] at hreq <;>
    refine ⟨by rw [hreq], by rw [hreq]; exact hused2, fun q b2 now2 hq => ?_⟩ <;>
    · rw [hreq]
      exact handleRequest_rejects_used b2 now2 hq hr hused2

theorem reference_consumed_on_validation_failure_witness :
    hasUsed
      (handleRequest
        { body := Body.move
            { style := some "krump", move_name := none, claimed_creator := none,
              description := none, video_url := none },
          header := some (some { txHash := some "0xonce", signature := none }),
          now := 4 }
        { receipts := [], payments := [] }).2.payments "0xonce" = true :=
  (reference_consumed_on_validation_failure
      (Body.move
        { style := some "krump", move_name := none, claimed_creator := none,
          description := none, video_url := none })
      { txHash := some "0xonce", signature := none }
      "0xonce" 4 { receipts := [], payments := [] }
      rfl (by decide) rfl
      (Or.inl ⟨"Required fields: style, move_name", by decide⟩)).2.1

end DanceVerify
